import Mathlib

/-!
Verification development for the script-execution and value-marshaling engine
of the IE webdriver (`cpp/iedriver/Script.cpp`).

The definitions below are a shallow embedding of `Script.cpp`.  Host-engine
interactions (COM calls: `execScript`, `IDispatch::Invoke`, window handles,
element registry messages, events, threads) are modelled as oracle structures
whose fields record the outcome of each external call; everything the C++
code itself computes (control flow, argument bookkeeping, generated script
text, retry/poll loops, message payload construction) is translated directly.
-/

namespace IEDriverScript

/-- Status codes from `errorcodes.h` (a collaborator header of `Script.cpp`);
only the identities of these codes matter here. -/
def WD_SUCCESS : Nat := 0

/-- `EOBSOLETEELEMENT` from `errorcodes.h`. -/
def EOBSOLETEELEMENT : Nat := 10

/-- `ENOSUCHDOCUMENT` from `errorcodes.h`. -/
def ENOSUCHDOCUMENT : Nat := 16

/-- `EUNEXPECTEDJSERROR` from `errorcodes.h`. -/
def EUNEXPECTEDJSERROR : Nat := 17

/-- A COM `VARIANT`/`CComVariant` as used by `Script.cpp`: only the variant
kinds the code actually constructs or dispatches on.  Object references
(`IDispatch*`, `IHTMLElement*`, `IHTMLWindow2*`) are identified by an opaque
numeric handle.  Doubles are carried as rationals; no claim inspects the
numeric payload. -/
inductive Variant where
  | empty
  | null
  | bstr (value : String)
  | i4 (value : Int)
  | r8 (value : Rat)
  | vbool (value : Bool)
  | dispatch (handle : Nat)
deriving Repr, DecidableEq

/-- The `VARENUM` tag (`vt` field) of a variant, with the standard Windows
values (`VT_EMPTY = 0`, `VT_NULL = 1`, `VT_I4 = 3`, `VT_R8 = 5`,
`VT_BSTR = 8`, `VT_DISPATCH = 9`, `VT_BOOL = 11`). -/
def vtOf : Variant → Nat
  | .empty => 0
  | .null => 1
  | .i4 _ => 3
  | .r8 _ => 5
  | .bstr _ => 8
  | .dispatch _ => 9
  | .vbool _ => 11

/-- `VariantUtilities::VariantIsEmpty` (collaborator): `vt == VT_EMPTY`. -/
def variantIsEmpty (v : Variant) : Bool :=
  vtOf v = 0

/-- Whether a variant is a callable dispatch object (`vt == VT_DISPATCH`). -/
def variantIsDispatch (v : Variant) : Bool :=
  vtOf v = 9

/-- The state of a `webdriver::Script` object.  `script_engine_host_` is the
`IHTMLDocument2*` member, identified by document id (`none` = NULL pointer). -/
structure ScriptState where
  script_engine_host_ : Option Nat
  source_code_ : String
  argument_count_ : Nat
  current_arg_index_ : Nat
  argument_array_ : List Variant
  result_ : Variant
deriving Repr, DecidableEq

/-- `Script::Script` / `Script::Initialize`: stores the document, source and
declared argument count, resets the fill index, and resizes the (empty)
argument vector to `argument_count` default-constructed variants
(`CComVariant()` is `VT_EMPTY`).  `result_` is default-constructed. -/
def mkScript (document : Option Nat) (script_source : String)
    (argument_count : Nat) : ScriptState :=
  { script_engine_host_ := document
    source_code_ := script_source
    argument_count_ := argument_count
    current_arg_index_ := 0
    argument_array_ := List.replicate argument_count Variant.empty
    result_ := Variant.empty }

/-- `Script::AddArgument(VARIANT)`:
`argument_array_[current_arg_index_] = wrapped_argument; ++current_arg_index_;`.
`std::vector::operator[]` never resizes the vector; when
`current_arg_index_ >= argument_array_.size()` the C++ write is out of bounds
(undefined behavior).  `List.set` leaves the list unchanged in that case, the
only defined-behavior completion in which the vector keeps its size. -/
def addArgumentVariant (s : ScriptState) (v : Variant) : ScriptState :=
  { s with
    argument_array_ := s.argument_array_.set s.current_arg_index_ v
    current_arg_index_ := s.current_arg_index_ + 1 }

/-- Outcome of `IDispatch::Invoke` on the anonymous function: success with a
result variant, `DISP_E_EXCEPTION` with an optional `bstrDescription`, or any
other failed HRESULT. -/
inductive InvokeResult where
  | ok (value : Variant)
  | threw (description : Option String)
  | failed
deriving Repr

/-- Oracle for the host scripting engine (COM interfaces used by
`Script::Execute` and `Script::CreateAnonymousFunction`).  `parent_window` is
the `IHTMLDocument2::get_parentWindow` result (window handle, `none` =
failure); `execScript` reports success of `IHTMLWindow2::execScript` on the
given code; `scriptFnProperty` is the value read back from
`document.__webdriver_script_fn` after evaluating the given script source
(`none` = `GetVariantObjectPropertyValue` failed); `get_ids_ok` reports
whether `GetIDsOfNames` finds `call` on the given function object; `invoke`
is `IDispatch::Invoke` keyed by script source and by the argument array
handed to the call. -/
structure Host where
  parent_window : Option Nat
  execScript : String → Bool
  scriptFnProperty : String → Option Variant
  get_ids_ok : Variant → Bool
  invoke : String → List Variant → InvokeResult

/-- The code evaluated by `Script::CreateAnonymousFunction`:
`window.document.__webdriver_script_fn = ` followed by the script source. -/
def anonymousFunctionScript (source : String) : String :=
  "window.document.__webdriver_script_fn = " ++ source

/-- `Script::CreateAnonymousFunction`: get the parent window, run the
assignment through `execScript`, then read the `__webdriver_script_fn`
property back; `none` models a `false` return. -/
def createAnonymousFunction (host : Host) (s : ScriptState) : Option Variant :=
  match host.parent_window with
  | none => none
  | some _ =>
    if host.execScript (anonymousFunctionScript s.source_code_) then
      host.scriptFnProperty s.source_code_
    else
      none

/-- The argument array built by `Script::Execute` for `IDispatch::Invoke`
(lines 227-234): a vector of size `n + 1` of default-constructed variants,
with the window variant copied to index `n`, then `argument_array_[index]`
copied to index `n - 1 - index` for each `index < n`. -/
def buildInvokeArgs (args : List Variant) (window : Variant) : List Variant :=
  (List.range args.length).foldl
    (fun acc index =>
      acc.set (args.length - 1 - index) (args.getD index Variant.empty))
    ((List.replicate (args.length + 1) Variant.empty).set args.length window)

/-- Result of `Script::Execute`: the returned status code, the script state
afterwards, and the argument array passed to `IDispatch::Invoke` (`none` when
no invocation was attempted). -/
structure ExecOutcome where
  status : Nat
  state : ScriptState
  invokedArgs : Option (List Variant)
deriving Repr

/-- `Script::Execute` (lines 179-272).  Early returns: NULL engine host →
`ENOSUCHDOCUMENT`; `CreateAnonymousFunction` failure → `EUNEXPECTEDJSERROR`;
non-dispatch function value → `WD_SUCCESS` with nothing invoked and `result_`
untouched; `GetIDsOfNames` or `get_parentWindow` failure →
`EUNEXPECTEDJSERROR`.  Otherwise the reversed-plus-window argument array is
passed to `Invoke`; on success `result_` receives the invocation result, on
`DISP_E_EXCEPTION` it receives the exception description (or the literal
`"EUNEXPECTEDJSERROR"` when `bstrDescription` is null), on other failures the
still-empty `error_description` string. -/
def execute (host : Host) (s : ScriptState) : ExecOutcome :=
  match s.script_engine_host_ with
  | none => ⟨ENOSUCHDOCUMENT, s, none⟩
  | some _ =>
    match createAnonymousFunction host s with
    | none => ⟨EUNEXPECTEDJSERROR, s, none⟩
    | some temp_function =>
      if variantIsDispatch temp_function = false then
        ⟨WD_SUCCESS, s, none⟩
      else if host.get_ids_ok temp_function = false then
        ⟨EUNEXPECTEDJSERROR, s, none⟩
      else
        match host.parent_window with
        | none => ⟨EUNEXPECTEDJSERROR, s, none⟩
        | some win =>
          let callArgs := buildInvokeArgs s.argument_array_ (Variant.dispatch win)
          match host.invoke s.source_code_ callArgs with
          | .ok value =>
            ⟨WD_SUCCESS, { s with result_ := value }, some callArgs⟩
          | .threw description =>
            ⟨EUNEXPECTEDJSERROR,
             { s with result_ := .bstr (description.getD "EUNEXPECTEDJSERROR") },
             some callArgs⟩
          | .failed =>
            ⟨EUNEXPECTEDJSERROR, { s with result_ := .bstr "" }, some callArgs⟩

/-! ### Characterization of the argument copy loop -/

theorem replicate_set_last {α : Type} (e v : α) (k : Nat) :
    (List.replicate (k + 1) e).set k v = List.replicate k e ++ [v] := by
  induction k with
  | zero => rfl
  | succ k ih =>
    simp only [List.replicate_succ, List.set]
    rw [← List.replicate_succ, ih]
    rfl

theorem set_append_left {α : Type} (l₁ l₂ : List α) (i : Nat) (v : α)
    (h : i < l₁.length) : (l₁ ++ l₂).set i v = l₁.set i v ++ l₂ := by
  induction l₁ generalizing i with
  | nil => simp at h
  | cons a l ih =>
    cases i with
    | zero => simp
    | succ i =>
      have h' : i < l.length := Nat.lt_of_succ_lt_succ (by simpa using h)
      simp only [List.cons_append, List.set, List.append_eq]
      rw [ih _ h']

theorem buildInvokeArgs_fill (args : List Variant) (w : Variant) (m : Nat)
    (hm : m ≤ args.length) :
    (List.range m).foldl
      (fun acc index =>
        acc.set (args.length - 1 - index) (args.getD index Variant.empty))
      (List.replicate args.length Variant.empty ++ [w]) =
    List.replicate (args.length - m) Variant.empty ++
      (args.take m).reverse ++ [w] := by
  induction m with
  | zero => simp
  | succ m ih =>
    have hm' : m ≤ args.length := Nat.le_of_succ_le hm
    have hmlt : m < args.length := hm
    rw [List.range_succ, List.foldl_append, ih hm']
    simp only [List.foldl_cons, List.foldl_nil]
    have hidx : args.length - 1 - m = args.length - m - 1 := by omega
    have hget : args.getD m Variant.empty = args.get ⟨m, hmlt⟩ := by
      simp [List.getD_eq_getElem?_getD, List.getElem?_eq_getElem hmlt]
    have htake : args.take (m + 1) = args.take m ++ [args.get ⟨m, hmlt⟩] := by
      rw [List.take_succ]
      simp [List.getElem?_eq_getElem hmlt]
    rw [hidx, hget, List.append_assoc]
    rw [set_append_left _ _ _ _ (by simp; omega)]
    obtain ⟨j, hj⟩ : ∃ j, args.length - m = j + 1 := ⟨args.length - m - 1, by omega⟩
    have hj2 : args.length - (m + 1) = j := by omega
    rw [hj]
    simp only [Nat.add_sub_cancel]
    rw [replicate_set_last, hj2, htake, List.reverse_append]
    simp only [List.reverse_singleton, List.append_assoc]

theorem buildInvokeArgs_eq (args : List Variant) (w : Variant) :
    buildInvokeArgs args w = args.reverse ++ [w] := by
  unfold buildInvokeArgs
  rw [replicate_set_last]
  have h := buildInvokeArgs_fill args w args.length (Nat.le_refl _)
  rw [h]
  simp

theorem buildInvokeArgs_length (args : List Variant) (w : Variant) :
    (buildInvokeArgs args w).length = args.length + 1 := by
  rw [buildInvokeArgs_eq]; simp

theorem buildInvokeArgs_receiver (args : List Variant) (w : Variant) :
    (buildInvokeArgs args w).getD args.length Variant.empty = w := by
  rw [buildInvokeArgs_eq, List.getD_eq_getElem?_getD]
  rw [List.getElem?_append_right (by simp)]
  simp

theorem buildInvokeArgs_pos (args : List Variant) (w : Variant) (i : Nat)
    (hi : i < args.length) :
    (buildInvokeArgs args w).getD (args.length - 1 - i) Variant.empty =
      args.getD i Variant.empty := by
  rw [buildInvokeArgs_eq]
  have hlt : args.length - 1 - i < args.reverse.length := by simp; omega
  rw [List.getD_eq_getElem?_getD, List.getElem?_append, if_pos hlt,
      List.getElem?_eq_getElem hlt,
      List.getD_eq_getElem?_getD, List.getElem?_eq_getElem hi]
  simp only [Option.getD_some]
  rw [List.getElem_reverse]
  congr 1
  simp only [List.length_reverse] at hlt
  omega

/-! ### JSON-like command values and the synthetic script bodies -/

/-- A `Json::Value` as dispatched on by `Script::AddArgument`: the kinds the
code tests for (`isString`, `isInt`, `isDouble`, `isBool`, `isNull`,
`isArray`, `isObject`).  Objects are member lists in enumeration order;
`Json::Value` member names are unique. -/
inductive JsonValue where
  | null
  | jstr (value : String)
  | jint (value : Int)
  | jdouble (value : Rat)
  | jbool (value : Bool)
  | jarray (elements : List JsonValue)
  | jobject (members : List (String × JsonValue))
deriving Repr

/-- The reserved element-reference marker key tested by
`Script::AddArgument(HWND, Json::Value)`. -/
def elementMarkerPropertyName : String := "element-6066-11e4-a52e-4f735466cecf"

/-- `Json::Value::isMember` on an object's member list. -/
def jsonObjectHasMember (members : List (String × JsonValue)) (name : String) :
    Bool :=
  members.any (fun m => m.1 = name)

/-- `object[name]` on an object's member list (first member with that name;
`Json::Value` member names are unique). -/
def jsonObjectGet (members : List (String × JsonValue)) (name : String) :
    JsonValue :=
  match members.find? (fun m => m.1 = name) with
  | some m => m.2
  | none => JsonValue.null

/-- `Json::Value::asString`: the marker value is a string in every use here. -/
def jsonAsString : JsonValue → String
  | .jstr s => s
  | _ => ""

/-- The item list of the script body generated by `Script::WalkArray`
(lines 711-719): starting from the empty string, for each `index` below the
array size append a comma when `index != 0` and then
`arguments[<index>]`. -/
def arrayScriptItems (n : Nat) : String :=
  (List.range n).foldl
    (fun acc index =>
      (if index ≠ 0 then acc ++ "," else acc) ++
        ("arguments[" ++ toString index ++ "]"))
    ""

/-- The full script body generated by `Script::WalkArray`. -/
def arrayScriptSource (n : Nat) : String :=
  "(function()\x7b return function() \x7b return [" ++ arrayScriptItems n ++
    "];\x7d\x7d)();"

/-- The item list of the script body generated by `Script::WalkObject`
(lines 745-756): a running counter starts at 0; for each member append a
comma when the counter is nonzero and then
`"<name>":arguments[<counter>]`, incrementing the counter. -/
def objectScriptItems (members : List (String × JsonValue)) : String :=
  (members.foldl
    (fun (acc : String × Nat) m =>
      ((if acc.2 ≠ 0 then acc.1 ++ "," else acc.1) ++
        ("\"" ++ m.1 ++ "\"" ++ ":arguments[" ++ toString acc.2 ++ "]"),
       acc.2 + 1))
    ("", 0)).1

/-- The full script body generated by `Script::WalkObject`. -/
def objectScriptSource (members : List (String × JsonValue)) : String :=
  "(function()\x7b return function() \x7b return \x7b" ++
    objectScriptItems members ++ "\x7d;\x7d\x7d)();"

/-- Spec-side description (refinement target, following the spec's words):
a comma-separated join of a list of items. -/
def specJoinComma : List String → String
  | [] => ""
  | [a] => a
  | a :: b :: rest => a ++ "," ++ specJoinComma (b :: rest)

/-- Spec-side description of one array item: `arguments[<i>]`. -/
def specArrayItem (i : Nat) : String := "arguments[" ++ toString i ++ "]"

/-- Spec-side description of one object item:
`"<name>":arguments[<k>]`. -/
def specObjectItem (k : Nat) (name : String) : String :=
  "\"" ++ name ++ "\"" ++ ":arguments[" ++ toString k ++ "]"

theorem specJoinComma_concat (l : List String) (x : String) (h : l ≠ []) :
    specJoinComma (l ++ [x]) = specJoinComma l ++ "," ++ x := by
  induction l with
  | nil => exact absurd rfl h
  | cons a l ih =>
    cases l with
    | nil => rfl
    | cons b rest =>
      have := ih (by simp)
      simp only [List.cons_append, List.append_eq, specJoinComma] at this ⊢
      rw [this]
      simp [String.append_assoc]

/-- The `WalkArray` string-builder loop produces exactly the comma-joined
list of `arguments[i]` items in index order. -/
theorem arrayScriptItems_eq (n : Nat) :
    arrayScriptItems n = specJoinComma ((List.range n).map specArrayItem) := by
  induction n with
  | zero => rfl
  | succ n ih =>
    unfold arrayScriptItems at ih ⊢
    rw [List.range_succ, List.foldl_append, List.map_append, ih,
        List.foldl_cons, List.foldl_nil]
    cases n with
    | zero => simp [specJoinComma, specArrayItem, String.empty_append]
    | succ m =>
      have hne : (List.range (m + 1)).map specArrayItem ≠ [] := by
        simp [List.range_succ]
      simp only [List.map_cons, List.map_nil]
      rw [specJoinComma_concat _ _ hne]
      simp [specArrayItem, String.append_assoc]

theorem objectScriptItems_counter (members : List (String × JsonValue))
    (acc : String) (k : Nat) :
    ((members.foldl
      (fun (acc : String × Nat) m =>
        ((if acc.2 ≠ 0 then acc.1 ++ "," else acc.1) ++
          ("\"" ++ m.1 ++ "\"" ++ ":arguments[" ++ toString acc.2 ++ "]"),
         acc.2 + 1))
      (acc, k)).2) = k + members.length := by
  induction members generalizing acc k with
  | nil => simp
  | cons m rest ih =>
    simp only [List.foldl_cons, List.length_cons]
    rw [ih]
    omega

/-- The `WalkObject` string-builder loop produces exactly the comma-joined
list of `"<name>":arguments[<k>]` items in enumeration order. -/
theorem objectScriptItems_eq (members : List (String × JsonValue)) :
    objectScriptItems members =
      specJoinComma (members.enum.map (fun p => specObjectItem p.1 p.2.1)) := by
  induction members using List.reverseRecOn with
  | nil => rfl
  | append_singleton ms m ih =>
    unfold objectScriptItems at ih ⊢
    rw [List.foldl_append, List.foldl_cons, List.foldl_nil]
    rw [List.enum_append, List.map_append]
    have hcnt := objectScriptItems_counter ms "" 0
    cases ms with
    | nil => simp [specJoinComma, specObjectItem, String.empty_append]
    | cons m0 rest =>
      have hne : ((m0 :: rest).enum.map (fun p => specObjectItem p.1 p.2.1)) ≠ [] := by
        simp [List.enum]
      simp only [hcnt, Nat.zero_add]
      rw [ih]
      have hlen : (m0 :: rest).length ≠ 0 := by simp
      rw [if_pos hlen]
      have henumFrom : ([m].enumFrom (m0 :: rest).length).map
          (fun p => specObjectItem p.1 p.2.1) =
          [specObjectItem (m0 :: rest).length m.1] := by
        simp [List.enumFrom]
      rw [henumFrom, specJoinComma_concat _ _ hne]
      simp [specObjectItem]

/-! ### The value marshaler: `AddArgument(HWND, Json::Value)` and the walks -/

/-- What the element registry (`WD_GET_MANAGED_ELEMENT` on the element
repository window, plus the wrapped `Element`) reports for an element id:
the native element handle, `Element::IsAttachedToDom`, and the document
returned by `IHTMLElement::get_document`. -/
structure ElementRecord where
  handle : Nat
  attached : Bool
  ownerDoc : Nat
deriving Repr, DecidableEq

/-- Environment for the marshaler: the host engine oracle and the element
registry.  `getManagedElement` models the `WD_GET_MANAGED_ELEMENT` message:
`.error c` is a non-success status code `c`, `.ok` carries the managed
element. -/
structure MarshalEnv where
  host : Host
  getManagedElement : String → Except Nat ElementRecord

mutual

/-- `Script::AddArgument(HWND, Json::Value)` (lines 652-703): dispatch on the
JSON kind; strings/ints/doubles/bools/null are wrapped as native literals;
arrays go to `WalkArray`; objects carrying the element marker key resolve
through the registry (attachment check, then same-document check via
`IsEqualObject` against `script_engine_host_`), adding the element's
dispatch handle on success and returning `EOBSOLETEELEMENT` otherwise;
other objects go to `WalkObject`. -/
def addArgumentJson (env : MarshalEnv) (s : ScriptState) :
    JsonValue → Nat × ScriptState
  | .jstr value => (WD_SUCCESS, addArgumentVariant s (.bstr value))
  | .jint value => (WD_SUCCESS, addArgumentVariant s (.i4 value))
  | .jdouble value => (WD_SUCCESS, addArgumentVariant s (.r8 value))
  | .jbool value => (WD_SUCCESS, addArgumentVariant s (.vbool value))
  | .null => (WD_SUCCESS, addArgumentVariant s .null)
  | .jarray elements => walkArray env s elements
  | .jobject members =>
    if jsonObjectHasMember members elementMarkerPropertyName then
      let element_id :=
        jsonAsString (jsonObjectGet members elementMarkerPropertyName)
      match env.getManagedElement element_id with
      | .error status_code => (status_code, s)
      | .ok info =>
        let is_element_valid :=
          if info.attached then
            s.script_engine_host_ == some info.ownerDoc
          else
            false
        if is_element_valid then
          (WD_SUCCESS, addArgumentVariant s (.dispatch info.handle))
        else
          (EOBSOLETEELEMENT, s)
    else
      walkObject env s members
termination_by j => (sizeOf j, 0)

/-- The per-element ingestion loop shared by `Script::AddArguments` and
`Script::WalkArray`: ingest values in order, stopping at the first
non-success status. -/
def addArgumentList (env : MarshalEnv) (s : ScriptState) :
    List JsonValue → Nat × ScriptState
  | [] => (WD_SUCCESS, s)
  | value :: rest =>
    match addArgumentJson env s value with
    | (status_code, s1) =>
      if status_code = WD_SUCCESS then addArgumentList env s1 rest
      else (status_code, s1)
termination_by l => (sizeOf l, 0)

/-- The member-value ingestion loop of `Script::WalkObject`: ingest
`object_value[it.memberName()]` for each member in enumeration order,
stopping at the first non-success status (member names are unique, so the
lookup returns the member's own value). -/
def addArgumentMemberList (env : MarshalEnv) (s : ScriptState) :
    List (String × JsonValue) → Nat × ScriptState
  | [] => (WD_SUCCESS, s)
  | (_name, value) :: rest =>
    match addArgumentJson env s value with
    | (status_code, s1) =>
      if status_code = WD_SUCCESS then addArgumentMemberList env s1 rest
      else (status_code, s1)
termination_by l => (sizeOf l, 0)

/-- `Script::WalkArray` (lines 705-738): build the synthetic array script, a
fresh `Script` over it with declared count = array size, ingest each element
into it recursively, execute it, and on success add its result variant to
the enclosing invocation. -/
def walkArray (env : MarshalEnv) (s : ScriptState)
    (elements : List JsonValue) : Nat × ScriptState :=
  let array_script := arrayScriptSource elements.length
  let wrapper := mkScript s.script_engine_host_ array_script elements.length
  match addArgumentList env wrapper elements with
  | (status_code, filled) =>
    if status_code = WD_SUCCESS then
      let r := execute env.host filled
      if r.status = WD_SUCCESS then
        (WD_SUCCESS, addArgumentVariant s r.state.result_)
      else
        (r.status, s)
    else
      (status_code, s)
termination_by (sizeOf elements, 1)

/-- `Script::WalkObject` (lines 740-775): same technique with the synthetic
object script; declared count = member count. -/
def walkObject (env : MarshalEnv) (s : ScriptState)
    (members : List (String × JsonValue)) : Nat × ScriptState :=
  let object_script := objectScriptSource members
  let wrapper := mkScript s.script_engine_host_ object_script members.length
  match addArgumentMemberList env wrapper members with
  | (status_code, filled) =>
    if status_code = WD_SUCCESS then
      let r := execute env.host filled
      if r.status = WD_SUCCESS then
        (WD_SUCCESS, addArgumentVariant s r.state.result_)
      else
        (r.status, s)
    else
      (status_code, s)
termination_by (sizeOf members, 1)

end

/-- `Script::AddArguments` (lines 630-650): resize the argument vector to the
JSON array's size, then ingest each element in order, stopping at the first
failure.  `std::vector::resize(n)` keeps the first `n` elements and pads
with default-constructed (`VT_EMPTY`) variants. -/
def addArguments (env : MarshalEnv) (s : ScriptState)
    (arguments : List JsonValue) : Nat × ScriptState :=
  let resized :=
    { s with
      argument_array_ :=
        s.argument_array_.take arguments.length ++
          List.replicate (arguments.length - s.argument_array_.length)
            Variant.empty }
  addArgumentList env resized arguments

/-! ### The asynchronous coordinator: `ExecuteAsync` and `BeginAsyncExecution` -/

/-- Error description set when `OpenEvent` still returns non-NULL after the
retries (lines 302 and 463). -/
def msgEventAlreadyExists : String :=
  "Couldn't create an event for synchronizing the creation of the thread. This generally means that you were trying to click on an option in two different instances."

/-- Error description set when `CreateEvent` returns NULL (lines 313, 474). -/
def msgCreateEventFailed : String :=
  "Couldn't create an event for synchronizing the creation of the thread. This is an internal failure at the Windows OS level, and is generally not due to an error in the IE driver."

/-- Error description set when `CreateEvent` finds the event already created
(lines 317, 478). -/
def msgEventInOtherInstance : String :=
  "Couldn't create an event for synchronizing the creation of the thread. This generally means that you were trying to click on an option in multiple different instances."

/-- Error description set when `_beginthreadex` returned NULL (lines 348,
509). -/
def msgThreadCreateFailed : String :=
  "Couldn't create the thread for executing JavaScript asynchronously."

/-- Error description set when marshaling the document stream failed (lines
364, 526). -/
def msgDocumentMarshalFailed : String :=
  "Couldn't marshal the IHTMLDocument2 interface to a stream. This is an internal COM error."

/-- Error description set when marshaling an `IDispatch` argument stream
failed (lines 383, 545). -/
def msgDispatchMarshalFailed : String :=
  "Couldn't marshal the IDispatch interface to a stream. This is an internal COM error."

/-- The exclusive-access retry loop on `OpenEvent` (lines 288-294 and
449-455): `retry_counter` starts at 50; while `OpenEvent` returns non-NULL
and `--retry_counter > 0`, sleep 50 ms and try again.  `held k` tells
whether the k-th `OpenEvent` call returns non-NULL.  Returns (whether the
final `OpenEvent` result was still non-NULL, number of 50 ms sleeps). -/
def openEventLoopAux (held : Nat → Bool) : Nat → Nat → Bool × Nat
  | attempt, retry_counter + 2 =>
    if held attempt then
      match openEventLoopAux held (attempt + 1) (retry_counter + 1) with
      | (h, sleeps) => (h, sleeps + 1)
    else
      (false, 0)
  | attempt, _ => (held attempt, 0)

/-- The completion poll loop (lines 408-413): `retry_counter` is
`timeout_in_milliseconds / 10`; the completion flag is queried once before
the loop, then while it is unset and `--retry_counter > 0`, sleep 10 ms and
query again.  `complete k` is the k-th query's answer.  Returns (final
`is_execution_finished`, number of 10 ms sleeps). -/
def pollLoopAux (complete : Nat → Bool) : Nat → Nat → Bool × Nat
  | query, retry_counter + 2 =>
    if complete query then
      (true, 0)
    else
      match pollLoopAux complete (query + 1) (retry_counter + 1) with
      | (f, sleeps) => (f, sleeps + 1)
  | query, _ => (complete query, 0)

/-- The `lparam` payload of a `WD_ASYNC_SCRIPT_SET_ARGUMENT` message. -/
inductive AsyncPayload where
  | nullPayload
  | stream (streamId : Nat)
  | bstrPtr (value : String)
  | boolVal (value : Bool)
  | intVal (value : Int)
  | dblPtr (value : Rat)
deriving Repr, DecidableEq

/-- Per-argument marshaling of `Script::ExecuteAsync` (lines 371-399):
`wparam` is the variant tag; only `VT_DISPATCH` is marshaled (to a stream;
`none` = `CoMarshalInterThreadInterfaceInStream` failed); every other kind
falls to the default case and `lparam` stays NULL. -/
def marshalArgExecuteAsync (marshalDispatch : Nat → Option Nat)
    (arg : Variant) : Option (Nat × AsyncPayload) :=
  match arg with
  | .dispatch handle =>
    match marshalDispatch handle with
    | some streamId => some (vtOf arg, .stream streamId)
    | none => none
  | _ => some (vtOf arg, .nullPayload)

/-- Per-argument marshaling of `Script::BeginAsyncExecution` (lines
533-575): `VT_DISPATCH` goes through a stream; `VT_BSTR` passes a pointer to
the string, `VT_BOOL` the boolean value, `VT_I4`/`VT_I8` the integer value,
`VT_R4`/`VT_R8` a pointer to the double; anything else falls to the default
case with a NULL `lparam`. -/
def marshalArgBeginAsync (marshalDispatch : Nat → Option Nat)
    (arg : Variant) : Option (Nat × AsyncPayload) :=
  match arg with
  | .dispatch handle =>
    match marshalDispatch handle with
    | some streamId => some (vtOf arg, .stream streamId)
    | none => none
  | .bstr value => some (vtOf arg, .bstrPtr value)
  | .vbool value => some (vtOf arg, .boolVal value)
  | .i4 value => some (vtOf arg, .intVal value)
  | .r8 value => some (vtOf arg, .dblPtr value)
  | _ => some (vtOf arg, .nullPayload)

/-- The `WD_ASYNC_SCRIPT_SET_ARGUMENT` send loop: per argument, marshal and
send; a dispatch-marshal failure aborts the loop (messages already sent
stay sent).  Returns (messages sent, whether the loop completed). -/
def sendArgLoop (marshal : Variant → Option (Nat × AsyncPayload)) :
    List Variant → List (Nat × AsyncPayload) × Bool
  | [] => ([], true)
  | arg :: rest =>
    match marshal arg with
    | none => ([], false)
    | some message =>
      match sendArgLoop marshal rest with
      | (messages, ok) => (message :: messages, ok)

/-- Oracle for the external calls of `ExecuteAsync` / `BeginAsyncExecution`:
`openEventHeld k` is whether the k-th `OpenEvent` returns non-NULL;
`createEventOk` whether `CreateEvent` returns non-NULL;
`createEventAlreadyExists` whether `GetLastError() == ERROR_ALREADY_EXISTS`;
`threadStarts` whether `_beginthreadex` returns a non-NULL handle;
`readinessSignaledAfter` is `some t` when the worker signals the readiness
event after `t` ms (the `WaitForSingleObject` call waits `min t 5000` ms)
and `none` when it never does (the wait runs its full 5000 ms timeout);
`marshalDoc` is the marshaled document stream (`none` = failure);
`marshalDispatch` the per-handle argument stream marshal; `workerComplete k`
the k-th `WD_ASYNC_SCRIPT_IS_EXECUTION_COMPLETE` answer; `workerStatus` the
`WD_ASYNC_SCRIPT_GET_RESULT` status code. -/
structure AsyncEnv where
  openEventHeld : Nat → Bool
  createEventOk : Bool
  createEventAlreadyExists : Bool
  threadStarts : Bool
  readinessSignaledAfter : Option Nat
  marshalDoc : Option Nat
  marshalDispatch : Nat → Option Nat
  workerComplete : Nat → Bool
  workerStatus : Nat

/-- Observable outcome of one `ExecuteAsync` / `BeginAsyncExecution` call. -/
structure AsyncOutcome where
  status : Nat
  errorDescription : Option String
  workerSpawned : Bool
  bootstrapSleeps : Nat
  readinessWaitMs : Nat
  documentSent : Bool
  argMessages : List (Nat × AsyncPayload)
  executePosted : Bool
  pollSleeps : Nat
  detachSent : Bool
deriving Repr, DecidableEq

/-- Time the readiness `WaitForSingleObject(event_handle, 5000)` blocks. -/
def readinessWait (signaledAfter : Option Nat) : Nat :=
  match signaledAfter with
  | some t => min t 5000
  | none => 5000

/-- `Script::ExecuteAsync` (lines 274-433).  Phases: exclusive `OpenEvent`
retry loop; `CreateEvent`; `_beginthreadex` plus bounded readiness wait (a
readiness timeout is only logged); NULL thread handle check; document
stream marshal and `WD_ASYNC_SCRIPT_SET_DOCUMENT`; per-argument
`WD_ASYNC_SCRIPT_SET_ARGUMENT` sends; `WD_ASYNC_SCRIPT_EXECUTE` post; the
10 ms completion poll loop; then either `WD_ASYNC_SCRIPT_GET_RESULT`'s
status, or `WD_ASYNC_SCRIPT_DETACH_LISTENTER` and `WD_SUCCESS`. -/
def executeAsync (env : AsyncEnv) (s : ScriptState)
    (timeout_in_milliseconds : Nat) : AsyncOutcome :=
  match openEventLoopAux env.openEventHeld 0 50 with
  | (still_held, bootSleeps) =>
    if still_held then
      { status := EUNEXPECTEDJSERROR
        errorDescription := some msgEventAlreadyExists
        workerSpawned := false, bootstrapSleeps := bootSleeps
        readinessWaitMs := 0, documentSent := false, argMessages := []
        executePosted := false, pollSleeps := 0, detachSent := false }
    else if env.createEventOk = false then
      { status := EUNEXPECTEDJSERROR
        errorDescription := some msgCreateEventFailed
        workerSpawned := false, bootstrapSleeps := bootSleeps
        readinessWaitMs := 0, documentSent := false, argMessages := []
        executePosted := false, pollSleeps := 0, detachSent := false }
    else if env.createEventAlreadyExists then
      { status := EUNEXPECTEDJSERROR
        errorDescription := some msgEventInOtherInstance
        workerSpawned := false, bootstrapSleeps := bootSleeps
        readinessWaitMs := 0, documentSent := false, argMessages := []
        executePosted := false, pollSleeps := 0, detachSent := false }
    else
      let readyWait := readinessWait env.readinessSignaledAfter
      if env.threadStarts = false then
        { status := EUNEXPECTEDJSERROR
          errorDescription := some msgThreadCreateFailed
          workerSpawned := false, bootstrapSleeps := bootSleeps
          readinessWaitMs := readyWait, documentSent := false
          argMessages := [], executePosted := false, pollSleeps := 0
          detachSent := false }
      else
        match env.marshalDoc with
        | none =>
          { status := EUNEXPECTEDJSERROR
            errorDescription := some msgDocumentMarshalFailed
            workerSpawned := true, bootstrapSleeps := bootSleeps
            readinessWaitMs := readyWait, documentSent := false
            argMessages := [], executePosted := false, pollSleeps := 0
            detachSent := false }
        | some _ =>
          match sendArgLoop (marshalArgExecuteAsync env.marshalDispatch)
              s.argument_array_ with
          | (messages, argsOk) =>
            if argsOk = false then
              { status := EUNEXPECTEDJSERROR
                errorDescription := some msgDispatchMarshalFailed
                workerSpawned := true, bootstrapSleeps := bootSleeps
                readinessWaitMs := readyWait, documentSent := true
                argMessages := messages, executePosted := false
                pollSleeps := 0, detachSent := false }
            else
              match pollLoopAux env.workerComplete 0
                  (timeout_in_milliseconds / 10) with
              | (finished, pollSleeps) =>
                if finished then
                  { status := env.workerStatus, errorDescription := none
                    workerSpawned := true, bootstrapSleeps := bootSleeps
                    readinessWaitMs := readyWait, documentSent := true
                    argMessages := messages, executePosted := true
                    pollSleeps := pollSleeps, detachSent := false }
                else
                  { status := WD_SUCCESS, errorDescription := none
                    workerSpawned := true, bootstrapSleeps := bootSleeps
                    readinessWaitMs := readyWait, documentSent := true
                    argMessages := messages, executePosted := true
                    pollSleeps := pollSleeps, detachSent := true }

/-- `Script::BeginAsyncExecution` (lines 435-580): identical bootstrap and
handoff (with the scalar-aware argument marshaling), but no poll loop: after
posting `WD_ASYNC_SCRIPT_EXECUTE` it returns `WD_SUCCESS`, exposing the
worker window handle to the caller. -/
def beginAsyncExecution (env : AsyncEnv) (s : ScriptState) : AsyncOutcome :=
  match openEventLoopAux env.openEventHeld 0 50 with
  | (still_held, bootSleeps) =>
    if still_held then
      { status := EUNEXPECTEDJSERROR
        errorDescription := some msgEventAlreadyExists
        workerSpawned := false, bootstrapSleeps := bootSleeps
        readinessWaitMs := 0, documentSent := false, argMessages := []
        executePosted := false, pollSleeps := 0, detachSent := false }
    else if env.createEventOk = false then
      { status := EUNEXPECTEDJSERROR
        errorDescription := some msgCreateEventFailed
        workerSpawned := false, bootstrapSleeps := bootSleeps
        readinessWaitMs := 0, documentSent := false, argMessages := []
        executePosted := false, pollSleeps := 0, detachSent := false }
    else if env.createEventAlreadyExists then
      { status := EUNEXPECTEDJSERROR
        errorDescription := some msgEventInOtherInstance
        workerSpawned := false, bootstrapSleeps := bootSleeps
        readinessWaitMs := 0, documentSent := false, argMessages := []
        executePosted := false, pollSleeps := 0, detachSent := false }
    else
      let readyWait := readinessWait env.readinessSignaledAfter
      if env.threadStarts = false then
        { status := EUNEXPECTEDJSERROR
          errorDescription := some msgThreadCreateFailed
          workerSpawned := false, bootstrapSleeps := bootSleeps
          readinessWaitMs := readyWait, documentSent := false
          argMessages := [], executePosted := false, pollSleeps := 0
          detachSent := false }
      else
        match env.marshalDoc with
        | none =>
          { status := EUNEXPECTEDJSERROR
            errorDescription := some msgDocumentMarshalFailed
            workerSpawned := true, bootstrapSleeps := bootSleeps
            readinessWaitMs := readyWait, documentSent := false
            argMessages := [], executePosted := false, pollSleeps := 0
            detachSent := false }
        | some _ =>
          match sendArgLoop (marshalArgBeginAsync env.marshalDispatch)
              s.argument_array_ with
          | (messages, argsOk) =>
            if argsOk = false then
              { status := EUNEXPECTEDJSERROR
                errorDescription := some msgDispatchMarshalFailed
                workerSpawned := true, bootstrapSleeps := bootSleeps
                readinessWaitMs := readyWait, documentSent := true
                argMessages := messages, executePosted := false
                pollSleeps := 0, detachSent := false }
            else
              { status := WD_SUCCESS, errorDescription := none
                workerSpawned := true, bootstrapSleeps := bootSleeps
                readinessWaitMs := readyWait, documentSent := true
                argMessages := messages, executePosted := true
                pollSleeps := 0, detachSent := false }

/-- Total time an `ExecuteAsync` call spends blocked in its sleeps and in
the readiness wait (50 ms bootstrap sleeps, the readiness wait, 10 ms poll
sleeps). -/
def totalBlockedMs (o : AsyncOutcome) : Nat :=
  o.bootstrapSleeps * 50 + o.readinessWaitMs + o.pollSleeps * 10

/-! ### Loop lemmas -/

theorem pollLoopAux_sleeps_le (c : Nat → Bool) (rc i : Nat) :
    (pollLoopAux c i rc).2 ≤ rc - 1 := by
  induction rc generalizing i with
  | zero => simp [pollLoopAux]
  | succ rc ih =>
    cases rc with
    | zero => simp [pollLoopAux]
    | succ rc' =>
      rw [pollLoopAux]
      split
      · simp
      · rcases hp : pollLoopAux c (i + 1) (rc' + 1) with ⟨f, sleeps⟩
        have hb := ih (i + 1)
        rw [hp] at hb
        simp only [hp]
        simp at hb ⊢
        omega

theorem pollLoopAux_never_completes (c : Nat → Bool)
    (hc : ∀ k, c k = false) (rc i : Nat) :
    (pollLoopAux c i rc).1 = false := by
  induction rc generalizing i with
  | zero => simp [pollLoopAux, hc]
  | succ rc ih =>
    cases rc with
    | zero => simp [pollLoopAux, hc]
    | succ rc' =>
      rw [pollLoopAux]
      rw [hc i]
      simp only [Bool.false_eq_true, if_false]
      rcases hp : pollLoopAux c (i + 1) (rc' + 1) with ⟨f, sleeps⟩
      have hb := ih (i + 1)
      rw [hp] at hb
      simpa [hp] using hb

theorem openEventLoopAux_all_held (held : Nat → Bool) (rc i : Nat)
    (hrc : 1 ≤ rc) (h : ∀ k, i ≤ k → k < i + rc → held k = true) :
    openEventLoopAux held i rc = (true, rc - 1) := by
  induction rc generalizing i with
  | zero => omega
  | succ rc ih =>
    cases rc with
    | zero =>
      have hh := h i (by omega) (by omega)
      simp [openEventLoopAux, hh]
    | succ rc' =>
      have hh := h i (by omega) (by omega)
      have hrec := ih (i + 1) (by omega)
        (fun k hk1 hk2 => h k (by omega) (by omega))
      simp [openEventLoopAux, hh, hrec]

/-! ### Sample fixtures used by witnesses and counterexamples -/

/-- A host oracle on which every Execute phase succeeds, the compiled
function is a dispatch object, the parent window is handle 7, and every
invocation returns dispatch handle 42. -/
def sampleHost : Host :=
  { parent_window := some 7
    execScript := fun _ => true
    scriptFnProperty := fun _ => some (Variant.dispatch 3)
    get_ids_ok := fun _ => true
    invoke := fun _ _ => InvokeResult.ok (Variant.dispatch 42) }

/-- Same host, but the compiled "function" evaluates to a string (a
non-invokable, non-dispatch value). -/
def sampleNonDispatchHost : Host :=
  { sampleHost with scriptFnProperty := fun _ => some (Variant.bstr "nope") }

/-- A two-argument invocation with both arguments filled in. -/
def sampleTwoArgScript : ScriptState :=
  { script_engine_host_ := some 5
    source_code_ := "return 1;"
    argument_count_ := 2
    current_arg_index_ := 2
    argument_array_ := [Variant.i4 1, Variant.bstr "a"]
    result_ := Variant.empty }

/-! ### Claims -/

/-- C1: `Script::Execute` passes the declared arguments to the host callee in
reverse order — the argument added at position `i` is placed at callee
position `N - 1 - i` — and appends exactly one implicit receiver argument,
the host engine's parent window, at position `N`; the array handed to
`IDispatch::Invoke` is exactly this reversed-plus-receiver array of length
`N + 1`. -/
theorem execute_passes_arguments_reversed_with_receiver
    (host : Host) (s : ScriptState) (d : Nat) (temp_function : Variant)
    (win : Nat)
    (hdoc : s.script_engine_host_ = some d)
    (hfn : createAnonymousFunction host s = some temp_function)
    (hdisp : variantIsDispatch temp_function = true)
    (hids : host.get_ids_ok temp_function = true)
    (hwin : host.parent_window = some win) :
    (execute host s).invokedArgs =
      some (buildInvokeArgs s.argument_array_ (Variant.dispatch win)) ∧
    (buildInvokeArgs s.argument_array_ (Variant.dispatch win)).length =
      s.argument_array_.length + 1 ∧
    (∀ i, i < s.argument_array_.length →
      (buildInvokeArgs s.argument_array_ (Variant.dispatch win)).getD
          (s.argument_array_.length - 1 - i) Variant.empty =
        s.argument_array_.getD i Variant.empty) ∧
    (buildInvokeArgs s.argument_array_ (Variant.dispatch win)).getD
        s.argument_array_.length Variant.empty = Variant.dispatch win := by
  refine ⟨?_, buildInvokeArgs_length _ _,
    fun i hi => buildInvokeArgs_pos _ _ i hi, buildInvokeArgs_receiver _ _⟩
  unfold execute
  rw [hdoc]
  simp only [hfn, hdisp, hids, hwin]
  cases hinv : host.invoke s.source_code_
      (buildInvokeArgs s.argument_array_ (Variant.dispatch win)) <;>
    simp [hinv]

/-- Witness for C1 at a concrete two-argument invocation. -/
theorem execute_passes_arguments_reversed_with_receiver_witness :
    (execute sampleHost sampleTwoArgScript).invokedArgs =
      some (buildInvokeArgs sampleTwoArgScript.argument_array_
        (Variant.dispatch 7)) ∧
    (buildInvokeArgs sampleTwoArgScript.argument_array_
        (Variant.dispatch 7)).getD 1 Variant.empty =
      sampleTwoArgScript.argument_array_.getD 0 Variant.empty ∧
    (buildInvokeArgs sampleTwoArgScript.argument_array_
        (Variant.dispatch 7)).getD 2 Variant.empty = Variant.dispatch 7 := by
  have h := execute_passes_arguments_reversed_with_receiver sampleHost
    sampleTwoArgScript 5 (Variant.dispatch 3) 7 rfl rfl rfl rfl rfl
  exact ⟨h.1, h.2.2.1 0 (by decide), h.2.2.2⟩

/-- C9: in `Script::Execute`, when the anonymous-function evaluation succeeds
but yields a non-dispatch (non-invokable) value, the call short-circuits with
`WD_SUCCESS`, the state (including the still-empty result) is unchanged, and
no invocation is attempted. -/
theorem execute_noninvokable_returns_success_empty
    (host : Host) (s : ScriptState) (d : Nat) (temp_function : Variant)
    (hdoc : s.script_engine_host_ = some d)
    (hfn : createAnonymousFunction host s = some temp_function)
    (hnd : variantIsDispatch temp_function = false) :
    execute host s = ⟨WD_SUCCESS, s, none⟩ ∧
    (s.result_ = Variant.empty →
      variantIsEmpty (execute host s).state.result_ = true) := by
  have hx : execute host s = ⟨WD_SUCCESS, s, none⟩ := by
    unfold execute
    rw [hdoc]
    simp only [hfn, hnd]
    simp
  refine ⟨hx, fun hres => ?_⟩
  rw [hx, hres]
  rfl

/-- Witness for C9: a fresh zero-argument script whose source compiles to a
string value. -/
theorem execute_noninvokable_returns_success_empty_witness :
    execute sampleNonDispatchHost (mkScript (some 5) "return 1;" 0) =
      ⟨WD_SUCCESS, mkScript (some 5) "return 1;" 0, none⟩ ∧
    variantIsEmpty (execute sampleNonDispatchHost
      (mkScript (some 5) "return 1;" 0)).state.result_ = true := by
  have h := execute_noninvokable_returns_success_empty sampleNonDispatchHost
    (mkScript (some 5) "return 1;" 0) 5 (Variant.bstr "nope") rfl rfl rfl
  exact ⟨h.1, h.2 rfl⟩

/-- C2 counterexample: on a `Script` declared with 0 arguments, the first
(excess) `AddArgument(VARIANT)` call does not fail in any observable way —
`AddArgument` returns `void`, has no status, and simply increments the fill
index; the argument vector is not resized (in C++ the write itself is out of
bounds, undefined behavior, not a reported internal error). -/
theorem addArgumentVariant_excess_call_silently_completes :
    addArgumentVariant (mkScript (some 0) "return 1;" 0) (Variant.i4 5) =
      { script_engine_host_ := some 0
        source_code_ := "return 1;"
        argument_count_ := 0
        current_arg_index_ := 1
        argument_array_ := []
        result_ := Variant.empty } := by
  rfl

/-- C2 (amended): `AddArgument(VARIANT)` never resizes the argument vector
(its length is invariant), always increments the fill index, and when the
fill index is already at or past the declared size, the vector contents are
untouched (the C++ write is an unchecked out-of-bounds access); no internal
error is ever reported because the function has no failure channel. -/
theorem addArgumentVariant_no_resize_no_error (s : ScriptState) (v : Variant) :
    (addArgumentVariant s v).argument_array_.length =
      s.argument_array_.length ∧
    (addArgumentVariant s v).current_arg_index_ = s.current_arg_index_ + 1 ∧
    (s.argument_array_.length ≤ s.current_arg_index_ →
      (addArgumentVariant s v).argument_array_ = s.argument_array_) := by
  refine ⟨List.length_set _ _ _, rfl, fun h => ?_⟩
  exact List.set_eq_of_length_le h

/-- Witness for the amended C2 at the concrete excess call. -/
theorem addArgumentVariant_no_resize_no_error_witness :
    (addArgumentVariant (mkScript (some 0) "s" 0)
      (Variant.i4 5)).argument_array_.length = 0 ∧
    (addArgumentVariant (mkScript (some 0) "s" 0)
      (Variant.i4 5)).current_arg_index_ = 1 ∧
    (addArgumentVariant (mkScript (some 0) "s" 0)
      (Variant.i4 5)).argument_array_ = [] := by
  have h := addArgumentVariant_no_resize_no_error (mkScript (some 0) "s" 0)
    (Variant.i4 5)
  exact ⟨h.1, h.2.1, h.2.2 (by decide)⟩

/-- C8: when the named bootstrap event is already held and stays held for
all 50 `OpenEvent` attempts, `ExecuteAsync` fails with `EUNEXPECTEDJSERROR`
and the "two different instances" description (the
concurrent-async-in-progress outcome), after 49 fixed 50 ms delays, and no
worker thread is spawned — so a second back-to-back asynchronous request
issued while the first holds the event reports this failure instead of
starting a concurrent worker. -/
theorem executeAsync_signal_held_reports_concurrent
    (env : AsyncEnv) (s : ScriptState) (T : Nat)
    (h : ∀ k, k < 50 → env.openEventHeld k = true) :
    executeAsync env s T =
      { status := EUNEXPECTEDJSERROR
        errorDescription := some msgEventAlreadyExists
        workerSpawned := false, bootstrapSleeps := 49, readinessWaitMs := 0
        documentSent := false, argMessages := [], executePosted := false
        pollSleeps := 0, detachSent := false } := by
  have hloop : openEventLoopAux env.openEventHeld 0 50 = (true, 49) := by
    have := openEventLoopAux_all_held env.openEventHeld 50 0 (by omega)
      (fun k _ hk => h k (by omega))
    simpa using this
  unfold executeAsync
  rw [hloop]
  simp

/-- Witness for C8 with the event held at every attempt. -/
theorem executeAsync_signal_held_reports_concurrent_witness :
    executeAsync
      { openEventHeld := fun _ => true, createEventOk := true
        createEventAlreadyExists := false, threadStarts := true
        readinessSignaledAfter := some 0, marshalDoc := some 0
        marshalDispatch := fun _ => some 0, workerComplete := fun _ => true
        workerStatus := 0 }
      (mkScript (some 5) "return 1;" 0) 200 =
      { status := EUNEXPECTEDJSERROR
        errorDescription := some msgEventAlreadyExists
        workerSpawned := false, bootstrapSleeps := 49, readinessWaitMs := 0
        documentSent := false, argMessages := [], executePosted := false
        pollSleeps := 0, detachSent := false } := by
  exact executeAsync_signal_held_reports_concurrent _ _ _ (fun k _ => rfl)

/-- An environment whose bootstrap fully succeeds, whose worker never
signals readiness (the 5000 ms startup wait runs out) and never sets the
completion flag. -/
def neverCompletingEnv : AsyncEnv :=
  { openEventHeld := fun _ => false
    createEventOk := true
    createEventAlreadyExists := false
    threadStarts := true
    readinessSignaledAfter := none
    marshalDoc := some 0
    marshalDispatch := fun _ => some 0
    workerComplete := fun _ => false
    workerStatus := WD_SUCCESS }

/-- Like `neverCompletingEnv`, but the worker completes at the very first
poll (while still never having signaled readiness). -/
def readinessTimeoutEnv : AsyncEnv :=
  { neverCompletingEnv with workerComplete := fun _ => true }

/-- Like `readinessTimeoutEnv`, but `_beginthreadex` fails and readiness is
signaled immediately. -/
def threadFailEnv : AsyncEnv :=
  { readinessTimeoutEnv with
    threadStarts := false
    readinessSignaledAfter := some 0 }

/-- C3 counterexample: with a 200 ms timeout and a worker that never
completes (and never signals readiness), `ExecuteAsync` blocks 5000 ms in
the readiness wait plus 190 ms of poll sleeps — 5190 ms, far beyond
timeout + one poll interval (210 ms). -/
theorem executeAsync_exceeds_timeout_plus_interval :
    totalBlockedMs (executeAsync neverCompletingEnv
      (mkScript (some 5) "while(true)\x7b\x7d" 0) 200) = 5190 ∧
    ¬ (totalBlockedMs (executeAsync neverCompletingEnv
      (mkScript (some 5) "while(true)\x7b\x7d" 0) 200) ≤ 200 + 10) := by
  decide

/-- C3 (amended): once the execute request has been dispatched, the poll
phase of `ExecuteAsync(T)` is bounded: the loop sleeps at most
`T/10 - 1` times of 10 ms, so the poll wait never exceeds `T` (and a
fortiori `T` plus one poll interval); and when the worker never sets the
completion flag, the call sends the detach notification and returns
`WD_SUCCESS`.  (The pre-dispatch bootstrap may additionally block up to
49·50 ms of signal retries and up to 5000 ms awaiting worker readiness, so
the whole call is not bounded by `T` + one interval.) -/
theorem executeAsync_poll_phase_bounded (env : AsyncEnv) (s : ScriptState)
    (T : Nat) :
    (executeAsync env s T).pollSleeps * 10 ≤ T ∧
    ((∀ k, env.workerComplete k = false) →
      (executeAsync env s T).executePosted = true →
      (executeAsync env s T).detachSent = true ∧
      (executeAsync env s T).status = WD_SUCCESS) := by
  have hdivle : T / 10 * 10 ≤ T := Nat.div_mul_le_self T 10
  have hb := pollLoopAux_sleeps_le env.workerComplete (T / 10) 0
  simp only [executeAsync]
  split
  · exact ⟨by simp, by simp⟩
  split
  · exact ⟨by simp, by simp⟩
  split
  · exact ⟨by simp, by simp⟩
  split
  · exact ⟨by simp, by simp⟩
  split
  · exact ⟨by simp, by simp⟩
  split
  · exact ⟨by simp, by simp⟩
  split
  next hfin =>
    refine ⟨by simp; omega, fun hk _ => ?_⟩
    have hn := pollLoopAux_never_completes env.workerComplete hk (T / 10) 0
    rw [hn] at hfin
    exact absurd hfin (by simp)
  next hfin =>
    exact ⟨by simp; omega, fun hk _ => ⟨by simp, by simp [WD_SUCCESS]⟩⟩

/-- Witness for the amended C3 at a concrete never-completing worker. -/
theorem executeAsync_poll_phase_bounded_witness :
    (executeAsync neverCompletingEnv
      (mkScript (some 5) "return 1;" 0) 200).pollSleeps * 10 ≤ 200 ∧
    (executeAsync neverCompletingEnv
      (mkScript (some 5) "return 1;" 0) 200).detachSent = true ∧
    (executeAsync neverCompletingEnv
      (mkScript (some 5) "return 1;" 0) 200).status = WD_SUCCESS := by
  have h := executeAsync_poll_phase_bounded neverCompletingEnv
    (mkScript (some 5) "return 1;" 0) 200
  exact ⟨h.1, h.2 (fun k => rfl) (by decide)⟩

/-- C7 counterexample: with a worker that starts but never signals readiness
within the 5 s startup wait, `ExecuteAsync` does not abort: it proceeds to
marshal and send the document, posts the execute request, and (the worker
completing immediately) returns the worker's status — not a
worker-start-failure error. -/
theorem executeAsync_readiness_timeout_does_not_abort :
    (executeAsync readinessTimeoutEnv
      (mkScript (some 5) "return 1;" 0) 100).documentSent = true ∧
    (executeAsync readinessTimeoutEnv
      (mkScript (some 5) "return 1;" 0) 100).executePosted = true ∧
    (executeAsync readinessTimeoutEnv
      (mkScript (some 5) "return 1;" 0) 100).status = WD_SUCCESS := by
  decide

/-- C7 (amended): if `_beginthreadex` fails (NULL thread handle),
`ExecuteAsync` returns `EUNEXPECTEDJSERROR` with the thread-creation
description before any handoff (no document sent, no argument messages, no
execute post); but a worker that merely fails to signal readiness within the
5000 ms startup wait is only logged — the coordinator still performs the
document handoff, with the full 5000 ms spent waiting. -/
theorem executeAsync_thread_failure_vs_readiness (env : AsyncEnv)
    (s : ScriptState) (T : Nat) (dstream : Nat)
    (hheld : (openEventLoopAux env.openEventHeld 0 50).1 = false)
    (hce : env.createEventOk = true)
    (hae : env.createEventAlreadyExists = false)
    (hdoc : env.marshalDoc = some dstream) :
    (env.threadStarts = false →
      executeAsync env s T =
        { status := EUNEXPECTEDJSERROR
          errorDescription := some msgThreadCreateFailed
          workerSpawned := false
          bootstrapSleeps := (openEventLoopAux env.openEventHeld 0 50).2
          readinessWaitMs := readinessWait env.readinessSignaledAfter
          documentSent := false, argMessages := [], executePosted := false
          pollSleeps := 0, detachSent := false }) ∧
    (env.threadStarts = true → env.readinessSignaledAfter = none →
      (executeAsync env s T).documentSent = true ∧
      (executeAsync env s T).readinessWaitMs = 5000) := by
  constructor
  · intro hts
    simp only [executeAsync, hheld, hce, hae, hts]
    simp
  · intro hts hready
    simp only [executeAsync, hheld, hce, hae, hts, hdoc, hready]
    simp only [Bool.false_eq_true, if_false, Bool.true_eq_false, reduceIte]
    split
    · simp [readinessWait]
    split <;> simp [readinessWait]

/-- Witness for the amended C7: thread-start failure aborts before handoff;
readiness timeout does not prevent the handoff. -/
theorem executeAsync_thread_failure_vs_readiness_witness :
    executeAsync threadFailEnv (mkScript (some 5) "return 1;" 0) 100 =
      { status := EUNEXPECTEDJSERROR
        errorDescription := some msgThreadCreateFailed
        workerSpawned := false, bootstrapSleeps := 0, readinessWaitMs := 0
        documentSent := false, argMessages := [], executePosted := false
        pollSleeps := 0, detachSent := false } ∧
    (executeAsync readinessTimeoutEnv
      (mkScript (some 5) "return 1;" 0) 100).documentSent = true ∧
    (executeAsync readinessTimeoutEnv
      (mkScript (some 5) "return 1;" 0) 100).readinessWaitMs = 5000 := by
  have h1 := (executeAsync_thread_failure_vs_readiness threadFailEnv
    (mkScript (some 5) "return 1;" 0) 100 0 rfl rfl rfl rfl).1 rfl
  have h2 := (executeAsync_thread_failure_vs_readiness readinessTimeoutEnv
    (mkScript (some 5) "return 1;" 0) 100 0 rfl rfl rfl rfl).2 rfl rfl
  exact ⟨h1.trans (by decide), h2.1, h2.2⟩

/-- C6 counterexample: in `ExecuteAsync`'s handoff, a string argument's
value is not copied to the worker — the message payload is NULL, so two
invocations whose only difference is the string value send identical
argument messages; `BeginAsyncExecution` does copy the value.  (The claim
that scalars are copied directly in both entry points fails for
`ExecuteAsync`.) -/
theorem executeAsync_scalar_value_not_copied :
    marshalArgExecuteAsync (fun h => some h) (Variant.bstr "hi") =
      some (8, AsyncPayload.nullPayload) ∧
    marshalArgExecuteAsync (fun h => some h) (Variant.bstr "bye") =
      marshalArgExecuteAsync (fun h => some h) (Variant.bstr "hi") ∧
    marshalArgBeginAsync (fun h => some h) (Variant.bstr "hi") =
      some (8, AsyncPayload.bstrPtr "hi") ∧
    (executeAsync neverCompletingEnv
      { sampleTwoArgScript with argument_array_ := [Variant.bstr "hi"] }
      0).argMessages =
    (executeAsync neverCompletingEnv
      { sampleTwoArgScript with argument_array_ := [Variant.bstr "bye"] }
      0).argMessages := by
  decide

/-- C6 (amended): `BeginAsyncExecution` copies scalar argument values
directly in the handoff — string and double by pointer, boolean and integer
by value — with no stream transfer, and only dispatch arguments go through
the single-use stream channel; `ExecuteAsync`'s handoff, by contrast,
marshals only dispatch arguments and sends every non-dispatch argument with
a NULL payload, copying no scalar value. -/
theorem async_scalar_values_copied_only_in_begin (md : Nat → Option Nat) :
    (∀ v, marshalArgBeginAsync md (Variant.bstr v) =
      some (8, AsyncPayload.bstrPtr v)) ∧
    (∀ b, marshalArgBeginAsync md (Variant.vbool b) =
      some (11, AsyncPayload.boolVal b)) ∧
    (∀ n, marshalArgBeginAsync md (Variant.i4 n) =
      some (3, AsyncPayload.intVal n)) ∧
    (∀ q, marshalArgBeginAsync md (Variant.r8 q) =
      some (5, AsyncPayload.dblPtr q)) ∧
    (∀ v, marshalArgExecuteAsync md (Variant.bstr v) =
      some (8, AsyncPayload.nullPayload)) ∧
    (∀ b, marshalArgExecuteAsync md (Variant.vbool b) =
      some (11, AsyncPayload.nullPayload)) ∧
    (∀ n, marshalArgExecuteAsync md (Variant.i4 n) =
      some (3, AsyncPayload.nullPayload)) ∧
    (∀ q, marshalArgExecuteAsync md (Variant.r8 q) =
      some (5, AsyncPayload.nullPayload)) ∧
    (∀ h, marshalArgExecuteAsync md (Variant.dispatch h) =
      (md h).map (fun st => (9, AsyncPayload.stream st))) ∧
    (∀ h, marshalArgBeginAsync md (Variant.dispatch h) =
      (md h).map (fun st => (9, AsyncPayload.stream st))) := by
  refine ⟨fun v => rfl, fun b => rfl, fun n => rfl, fun q => rfl,
    fun v => rfl, fun b => rfl, fun n => rfl, fun q => rfl,
    fun h => ?_, fun h => ?_⟩ <;>
  · cases hmd : md h <;>
      simp [marshalArgExecuteAsync, marshalArgBeginAsync, hmd, vtOf]

/-- Witness for the amended C6 at concrete scalar and dispatch arguments. -/
theorem async_scalar_values_copied_only_in_begin_witness :
    marshalArgBeginAsync (fun h => some h) (Variant.bstr "hi") =
      some (8, AsyncPayload.bstrPtr "hi") ∧
    marshalArgExecuteAsync (fun h => some h) (Variant.bstr "hi") =
      some (8, AsyncPayload.nullPayload) ∧
    marshalArgExecuteAsync (fun h => some h) (Variant.dispatch 4) =
      some (9, AsyncPayload.stream 4) := by
  have h := async_scalar_values_copied_only_in_begin (fun h => some h)
  exact ⟨h.1 "hi", h.2.2.2.2.1 "hi", (h.2.2.2.2.2.2.2.2.1 4).trans rfl⟩

/-- A marshaler environment over `sampleHost` whose registry reports an
element that is detached from the DOM. -/
def detachedRegistryEnv : MarshalEnv :=
  { host := sampleHost
    getManagedElement :=
      fun _ => .ok { handle := 2, attached := false, ownerDoc := 5 } }

/-- C4: for an object argument carrying the element-reference marker key,
when the registry resolves the element but it is no longer attached to a
document, or its owning document is not the one bound to the current host
engine, `AddArgument` returns `EOBSOLETEELEMENT` and the invocation state —
in particular the argument list — is unchanged. -/
theorem addArgumentJson_obsolete_reference (env : MarshalEnv)
    (s : ScriptState) (members : List (String × JsonValue))
    (info : ElementRecord)
    (hmk : jsonObjectHasMember members elementMarkerPropertyName = true)
    (hlook : env.getManagedElement
      (jsonAsString (jsonObjectGet members elementMarkerPropertyName)) =
      .ok info)
    (hbad : info.attached = false ∨
      s.script_engine_host_ ≠ some info.ownerDoc) :
    addArgumentJson env s (.jobject members) = (EOBSOLETEELEMENT, s) := by
  simp only [addArgumentJson, hmk, if_true, hlook]
  rcases hbad with h | h
  · simp [h]
  · have hne : (s.script_engine_host_ == some info.ownerDoc) = false := by
      simp [h]
    cases hatt : info.attached <;> simp [hatt, hne]

/-- Witness for C4 at a concrete detached element reference. -/
theorem addArgumentJson_obsolete_reference_witness :
    addArgumentJson detachedRegistryEnv (mkScript (some 5) "return 1;" 1)
      (.jobject [(elementMarkerPropertyName, .jstr "e1")]) =
      (EOBSOLETEELEMENT, mkScript (some 5) "return 1;" 1) := by
  exact addArgumentJson_obsolete_reference detachedRegistryEnv
    (mkScript (some 5) "return 1;" 1)
    [(elementMarkerPropertyName, .jstr "e1")]
    { handle := 2, attached := false, ownerDoc := 5 }
    (by decide) rfl (Or.inl rfl)

/-! ### Shape preservation of the marshaler (for C10) -/

theorem walkArray_preserves_shape (env : MarshalEnv) (s : ScriptState)
    (elements : List JsonValue) :
    (walkArray env s elements).2.argument_array_.length =
      s.argument_array_.length ∧
    (walkArray env s elements).2.argument_count_ = s.argument_count_ := by
  simp only [walkArray]
  split
  · split
    · simp [addArgumentVariant]
    · simp
  · simp

theorem walkObject_preserves_shape (env : MarshalEnv) (s : ScriptState)
    (members : List (String × JsonValue)) :
    (walkObject env s members).2.argument_array_.length =
      s.argument_array_.length ∧
    (walkObject env s members).2.argument_count_ = s.argument_count_ := by
  simp only [walkObject]
  split
  · split
    · simp [addArgumentVariant]
    · simp
  · simp

theorem addArgumentJson_preserves_shape (env : MarshalEnv) (s : ScriptState)
    (j : JsonValue) :
    (addArgumentJson env s j).2.argument_array_.length =
      s.argument_array_.length ∧
    (addArgumentJson env s j).2.argument_count_ = s.argument_count_ := by
  cases j with
  | null => simp [addArgumentJson, addArgumentVariant]
  | jstr v => simp [addArgumentJson, addArgumentVariant]
  | jint v => simp [addArgumentJson, addArgumentVariant]
  | jdouble v => simp [addArgumentJson, addArgumentVariant]
  | jbool v => simp [addArgumentJson, addArgumentVariant]
  | jarray elements =>
    simpa only [addArgumentJson] using walkArray_preserves_shape env s elements
  | jobject members =>
    rw [addArgumentJson]
    split
    · cases hg : env.getManagedElement
          (jsonAsString (jsonObjectGet members elementMarkerPropertyName)) with
      | error c => simp [hg]
      | ok info =>
        simp only [hg]
        split
        · split <;> simp [addArgumentVariant]
        · simp
    · exact walkObject_preserves_shape env s members

theorem addArgumentList_preserves_shape (env : MarshalEnv)
    (l : List JsonValue) (s : ScriptState) :
    (addArgumentList env s l).2.argument_array_.length =
      s.argument_array_.length ∧
    (addArgumentList env s l).2.argument_count_ = s.argument_count_ := by
  induction l generalizing s with
  | nil => simp [addArgumentList]
  | cons v rest ih =>
    have h1 := addArgumentJson_preserves_shape env s v
    rcases hj : addArgumentJson env s v with ⟨st, s1⟩
    rw [hj] at h1
    simp only [addArgumentList, hj]
    split
    · have h2 := ih s1
      exact ⟨h2.1.trans h1.1, h2.2.trans h1.2⟩
    · exact h1

/-- C10: `AddArguments` first resizes the argument vector to the JSON
array's length, regardless of the count declared at construction, and the
subsequent per-element ingestion never changes the vector's length — so
after `AddArguments` the argument list length equals the JSON array length
(even when it differs from the unchanged declared count). -/
theorem addArguments_resizes_to_json_length (env : MarshalEnv)
    (s : ScriptState) (arguments : List JsonValue) :
    (addArguments env s arguments).2.argument_array_.length =
      arguments.length ∧
    (addArguments env s arguments).2.argument_count_ = s.argument_count_ := by
  unfold addArguments
  have h := addArgumentList_preserves_shape env arguments
    { s with
      argument_array_ :=
        s.argument_array_.take arguments.length ++
          List.replicate (arguments.length - s.argument_array_.length)
            Variant.empty }
  refine ⟨h.1.trans ?_, h.2⟩
  simp
  omega

/-! ### C5: composite marshaling via synthetic invocations -/

/-- C5: the array walk synthesizes the script body returning
`[arguments[0], ..., arguments[N-1]]` in index order (a comma-joined item
list), builds a fresh `Script` over that body with declared argument count
`N` (its pre-sized argument vector has length `N`), recursively ingests each
element into it, executes it synchronously, and on success appends the
execution's single native result as exactly one argument of the enclosing
invocation (advancing its fill index by one); the object walk does the same
with the object-literal body keyed by the member names mapping to
`arguments[k]` in enumeration order. -/
theorem walk_synthesizes_and_appends (env : MarshalEnv) (s : ScriptState)
    (elements : List JsonValue) (members : List (String × JsonValue))
    (filledA filledO : ScriptState)
    (hA : addArgumentList env
      (mkScript s.script_engine_host_ (arrayScriptSource elements.length)
        elements.length) elements = (WD_SUCCESS, filledA))
    (hAx : (execute env.host filledA).status = WD_SUCCESS)
    (hO : addArgumentMemberList env
      (mkScript s.script_engine_host_ (objectScriptSource members)
        members.length) members = (WD_SUCCESS, filledO))
    (hOx : (execute env.host filledO).status = WD_SUCCESS) :
    walkArray env s elements =
      (WD_SUCCESS,
        addArgumentVariant s (execute env.host filledA).state.result_) ∧
    walkObject env s members =
      (WD_SUCCESS,
        addArgumentVariant s (execute env.host filledO).state.result_) ∧
    addArgumentJson env s (.jarray elements) = walkArray env s elements ∧
    arrayScriptSource elements.length =
      "(function()\x7b return function() \x7b return [" ++
        specJoinComma ((List.range elements.length).map specArrayItem) ++
        "];\x7d\x7d)();" ∧
    objectScriptSource members =
      "(function()\x7b return function() \x7b return \x7b" ++
        specJoinComma (members.enum.map (fun p => specObjectItem p.1 p.2.1)) ++
        "\x7d;\x7d\x7d)();" ∧
    (mkScript s.script_engine_host_ (arrayScriptSource elements.length)
      elements.length).argument_count_ = elements.length ∧
    (mkScript s.script_engine_host_ (arrayScriptSource elements.length)
      elements.length).argument_array_.length = elements.length ∧
    (mkScript s.script_engine_host_ (objectScriptSource members)
      members.length).argument_count_ = members.length ∧
    (addArgumentVariant s
      (execute env.host filledA).state.result_).current_arg_index_ =
      s.current_arg_index_ + 1 := by
  refine ⟨?_, ?_, by simp only [addArgumentJson],
    by rw [arrayScriptSource, arrayScriptItems_eq],
    by rw [objectScriptSource, objectScriptItems_eq],
    by simp [mkScript], by simp [mkScript], by simp [mkScript],
    by simp [addArgumentVariant]⟩
  · simp only [walkArray, hA, hAx]
    simp
  · simp only [walkObject, hO, hOx]
    simp

/-- A marshaler environment over `sampleHost` whose registry knows no
elements. -/
def sampleMarshalEnv : MarshalEnv :=
  { host := sampleHost, getManagedElement := fun _ => .error 7 }

/-- A one-argument enclosing invocation being filled. -/
def sampleOuterScript : ScriptState :=
  mkScript (some 5) "function()\x7b\x7d" 1

/-- The array wrapper of `walkArray` over `[1, true]` after both elements
have been ingested. -/
def sampleFilledArrayWrapper : ScriptState :=
  { script_engine_host_ := some 5
    source_code_ := arrayScriptSource 2
    argument_count_ := 2
    current_arg_index_ := 2
    argument_array_ := [Variant.i4 1, Variant.vbool true]
    result_ := Variant.empty }

/-- The object wrapper of `walkObject` over `{"a": "x"}` after its member
has been ingested. -/
def sampleFilledObjectWrapper : ScriptState :=
  { script_engine_host_ := some 5
    source_code_ := objectScriptSource [("a", JsonValue.jstr "x")]
    argument_count_ := 1
    current_arg_index_ := 1
    argument_array_ := [Variant.bstr "x"]
    result_ := Variant.empty }

/-- Witness for C5 at a concrete array `[1, true]` and object
`{"a": "x"}`. -/
theorem walk_synthesizes_and_appends_witness :
    walkArray sampleMarshalEnv sampleOuterScript
      [JsonValue.jint 1, JsonValue.jbool true] =
      (WD_SUCCESS,
        addArgumentVariant sampleOuterScript (Variant.dispatch 42)) ∧
    walkObject sampleMarshalEnv sampleOuterScript
      [("a", JsonValue.jstr "x")] =
      (WD_SUCCESS,
        addArgumentVariant sampleOuterScript (Variant.dispatch 42)) := by
  have h := walk_synthesizes_and_appends sampleMarshalEnv sampleOuterScript
    [JsonValue.jint 1, JsonValue.jbool true] [("a", JsonValue.jstr "x")]
    sampleFilledArrayWrapper sampleFilledObjectWrapper
    (by simp [addArgumentList, addArgumentJson, addArgumentVariant, mkScript,
              sampleMarshalEnv, sampleOuterScript, sampleFilledArrayWrapper,
              WD_SUCCESS])
    (by decide)
    (by simp [addArgumentMemberList, addArgumentJson, addArgumentVariant,
              mkScript, sampleMarshalEnv, sampleOuterScript,
              sampleFilledObjectWrapper, WD_SUCCESS])
    (by decide)
  exact ⟨h.1.trans (by decide), h.2.1.trans (by decide)⟩

end IEDriverScript
